import Mathlib

/-!
Verification of the QuranAudioBot playback-continuity state machine.

The definitions below are a shallow embedding of the control-panel handlers
in `src/cogs/user_commands/control_panel.py` (skip_button, previous_button,
loop_button, shuffle_button, ReciterSelect.callback and the nested
restart_playback coroutine), of the loaders `_load_sessions`
(`src/monitoring/logging/discord_logger.py`) and `load_surah_database`
(`src/utils/surah_mapper.py`), and of the lookup and search helpers of
`src/utils/surah_mapper.py`.  Discord I/O (embeds, interactions) is elided;
state mutations, guards, orderings and reported results are kept.  JSON
decoding and datetime parsing are abstracted as parse outcomes carried by
the stored data.
-/

namespace QuranAudioBot

/-- Last-activity record written by `BotConfig.set_last_activity`. -/
structure Activity where
  action : String
  userId : Nat
  userName : String
deriving DecidableEq, Repr

/-- The bot-wide mutable playback state touched by the control panel:
`state_manager`'s current song index, `bot.current_reciter`,
`bot.loop_enabled` with the loop user recorded by `set_loop_user`,
`bot.shuffle_enabled` with the shuffle user of `set_shuffle_user`,
`bot.is_streaming`, plus a counter of `play_quran_files` tasks spawned via
`asyncio.create_task` (the active-stream identity). -/
structure BotState where
  currentIndex : Option Nat
  currentReciter : Option String
  loopEnabled : Bool
  loopUser : Option Nat
  shuffleEnabled : Bool
  shuffleUser : Option Nat
  isStreaming : Bool
  playSpawns : Nat
  lastActivity : Option Activity
deriving DecidableEq, Repr

/-- State at first startup: nothing selected, nothing streaming,
both toggles off with no recorded owner. -/
def initState : BotState :=
  { currentIndex := none
    currentReciter := none
    loopEnabled := false
    loopUser := none
    shuffleEnabled := false
    shuffleUser := none
    isStreaming := false
    playSpawns := 0
    lastActivity := none }

/-- Outcome a button handler reports to the pressing user:
`boundary` is the informational warning embed sent without mutating state
(the spec's AlreadyAtBoundary), `restarted` means a new stream task was
spawned, `noVoice` is the caught "Voice client not available or not
connected" error surfaced as an error embed (the spec's
NoVoiceConnectionError). -/
inductive PressResult
  | boundary
  | restarted
  | noVoice
deriving DecidableEq, Repr

/-- The nested `restart_playback` coroutine shared by the skip, previous and
reciter handlers: sets `is_streaming = False`, sleeps, looks for a connected
voice client (`voiceOk`); when found sets `is_streaming = True` and spawns a
`play_quran_files` task, otherwise raises, catches its own exception and
reports the error.  It never touches the persisted index or reciter. -/
def restart_playback (voiceOk : Bool) (s : BotState) : BotState × PressResult :=
  let s1 := { s with isStreaming := false }
  if voiceOk then
    ({ s1 with isStreaming := true, playSpawns := s1.playSpawns + 1 }, .restarted)
  else
    (s1, .noVoice)

/-- `skip_button` (control_panel.py lines 1403 on): when no current index is
set it sends a "Not currently playing!" warning and returns; otherwise it
persists `current_index + 1` through the state manager, records the last
activity, and only then awaits `restart_playback`.  There is no last-index
check and no wrap. -/
def skip_button (voiceOk : Bool) (uid : Nat) (uname : String) (s : BotState) :
    BotState × PressResult :=
  match s.currentIndex with
  | none => (s, .boundary)
  | some i =>
      let s1 := { s with currentIndex := some (i + 1),
                         lastActivity := some ⟨"Skipped to Next Surah", uid, uname⟩ }
      restart_playback voiceOk s1

/-- `previous_button` (control_panel.py lines 1178 on): when no index is set
or the index is 0 it sends the "Not currently playing or at the first
surah!" warning and returns without mutating anything; otherwise it persists
`current_index - 1`, records the activity and awaits `restart_playback`. -/
def previous_button (voiceOk : Bool) (uid : Nat) (uname : String) (s : BotState) :
    BotState × PressResult :=
  match s.currentIndex with
  | none => (s, .boundary)
  | some i =>
      if i = 0 then (s, .boundary)
      else
        let s1 := { s with currentIndex := some (i - 1),
                           lastActivity := some ⟨"Went to Previous Surah", uid, uname⟩ }
        restart_playback voiceOk s1

/-- `loop_button` (control_panel.py lines 1284 on): flips `bot.loop_enabled`;
when enabling it records the toggling user via `set_loop_user`, when
disabling it clears the loop user.  It never calls `restart_playback` and
never touches the index, the reciter or the stream. -/
def loop_button (uid : Nat) (uname : String) (s : BotState) : BotState :=
  if !s.loopEnabled then
    { s with loopEnabled := true, loopUser := some uid,
             lastActivity := some ⟨"Enabled Loop", uid, uname⟩ }
  else
    { s with loopEnabled := false, loopUser := none,
             lastActivity := some ⟨"Disabled Loop", uid, uname⟩ }

/-- `shuffle_button` (control_panel.py lines 1343 on): same shape as
`loop_button` for the shuffle flag and `set_shuffle_user`. -/
def shuffle_button (uid : Nat) (uname : String) (s : BotState) : BotState :=
  if !s.shuffleEnabled then
    { s with shuffleEnabled := true, shuffleUser := some uid,
             lastActivity := some ⟨"Enabled Shuffle", uid, uname⟩ }
  else
    { s with shuffleEnabled := false, shuffleUser := none,
             lastActivity := some ⟨"Disabled Shuffle", uid, uname⟩ }

/-- A reciter catalog: each reciter name paired with the ordered list of
surah numbers of its track files. -/
abbrev Catalog : Type := List (String × List Nat)

/-- Track list of a reciter, `none` when the name is unknown. -/
def Catalog.tracks (cat : Catalog) (name : String) : Option (List Nat) :=
  (cat.find? (fun p => p.1 == name)).map Prod.snd

/-- Modelled from the spec: `Catalog.index_for_surah` of section 6 (the
catalog adapter scanning the reciter's audio folder is not among the
provided sources).  First position of the surah number in an ordered track
list, `none` when absent. -/
def index_for_surah (tracks : List Nat) (n : Nat) : Option Nat :=
  match tracks with
  | [] => none
  | t :: rest => if t = n then some 0 else (index_for_surah rest n).map (· + 1)

/-- Typed failure of a reciter switch. -/
inductive ReciterError
  | unknownReciter
deriving DecidableEq, Repr

/-- Modelled from the spec: `bot.set_current_reciter` lives in the bot's
main module, which is not among the provided sources; only its caller
`ReciterSelect.callback` is.  Per the spec it fails with UnknownReciterError
for a name outside the catalog (changing nothing), and on success preserves
the current surah by surah number in the new reciter's track list, falling
back to index 0 when that surah is absent there. -/
def set_reciter (cat : Catalog) (name : String) (s : BotState) :
    BotState × Option ReciterError :=
  match Catalog.tracks cat name with
  | none => (s, some .unknownReciter)
  | some newTracks =>
      let oldSurah : Option Nat :=
        match s.currentReciter, s.currentIndex with
        | some r, some i =>
            match Catalog.tracks cat r with
            | some oldTracks => oldTracks[i]?
            | none => none
        | _, _ => none
      let newIdx : Nat :=
        match oldSurah with
        | some n => (index_for_surah newTracks n).getD 0
        | none => 0
      ({ s with currentReciter := some name, currentIndex := some newIdx }, none)

/-- `ReciterSelect.callback` (control_panel.py lines 735 on): calls
`set_current_reciter`; on failure sends an error embed and returns with
nothing changed; on success records the activity and awaits
`restart_playback` (whose own error is swallowed into a follow-up
message). -/
def reciter_select_callback (cat : Catalog) (voiceOk : Bool) (uid : Nat)
    (uname : String) (name : String) (s : BotState) :
    BotState × Option ReciterError :=
  match set_reciter cat name s with
  | (s1, some e) => (s1, some e)
  | (s1, none) =>
      let s2 := { s1 with lastActivity := some ⟨"Switched to " ++ name, uid, uname⟩ }
      ((restart_playback voiceOk s2).1, none)

/-- One user-triggered mutation of the playback state. -/
inductive Op
  | next (voiceOk : Bool) (uid : Nat) (uname : String)
  | prev (voiceOk : Bool) (uid : Nat) (uname : String)
  | toggleLoop (uid : Nat) (uname : String)
  | toggleShuffle (uid : Nat) (uname : String)
  | selectReciter (voiceOk : Bool) (uid : Nat) (uname : String) (name : String)

/-- Apply one control-panel operation to the state. -/
def applyOp (cat : Catalog) (s : BotState) : Op → BotState
  | .next v uid un => (skip_button v uid un s).1
  | .prev v uid un => (previous_button v uid un s).1
  | .toggleLoop uid un => loop_button uid un s
  | .toggleShuffle uid un => shuffle_button uid un s
  | .selectReciter v uid un name => (reciter_select_callback cat v uid un name s).1

/-- Run a sequence of control-panel operations. -/
def runOps (cat : Catalog) (s : BotState) (ops : List Op) : BotState :=
  ops.foldl (applyOp cat) s

/-- Owner-tracking invariant: the loop user is recorded exactly when loop is
enabled, and likewise for shuffle. -/
def OwnerInv (s : BotState) : Prop :=
  s.loopUser.isSome = s.loopEnabled ∧ s.shuffleUser.isSome = s.shuffleEnabled

/-! Event-loop interleaving of rapid skip presses.

Each press of the skip button runs as its own task on the event loop.  Up to
its first `await`, a handler runs atomically: it writes `current_index + 1`
to the state manager, enters `restart_playback`, sets `is_streaming = False`
and suspends in `asyncio.sleep(2)`.  When the sleep of one suspended restart
coroutine elapses, that coroutine resumes: it looks for a connected voice
client and, when found, sets `is_streaming = True` and fire-and-forgets a
fresh `play_quran_files` task via `asyncio.create_task`.  There is no
generation counter and nothing cancels or supersedes a suspended restart. -/

/-- State of the event-loop model: the persisted index, the streaming flag,
how many restart coroutines are currently suspended in their sleep
(`pending`), the largest number ever suspended at once (`maxActive`), and
how many `play_quran_files` stream tasks have been spawned
(`playStarts`). -/
structure RaceState where
  idx : Option Nat
  streaming : Bool
  pending : Nat
  maxActive : Nat
  playStarts : Nat
deriving DecidableEq, Repr

/-- Event-loop events: `press` is a skip press running to its first await;
`finish ok` resumes the oldest suspended restart after its sleep, with `ok`
telling whether a connected voice client was found. -/
inductive RaceEvent
  | press
  | finish (voiceOk : Bool)
deriving DecidableEq, Repr

/-- One event-loop step of the rapid-skip scenario. -/
def raceStep (s : RaceState) : RaceEvent → RaceState
  | .press =>
      match s.idx with
      | none => s
      | some i =>
          let p := s.pending + 1
          { s with idx := some (i + 1), streaming := false,
                   pending := p, maxActive := max s.maxActive p }
  | .finish ok =>
      match s.pending with
      | 0 => s
      | p + 1 =>
          if ok then
            { s with pending := p, streaming := true,
                     playStarts := s.playStarts + 1 }
          else
            { s with pending := p }

/-- Run a list of event-loop events. -/
def raceRun (s : RaceState) (es : List RaceEvent) : RaceState :=
  es.foldl raceStep s

/-- A playing bot at index 0 with no restart in flight; `maxActive` and
`playStarts` count restart-triggered activity only. -/
def raceInit : RaceState :=
  { idx := some 0, streaming := true, pending := 0, maxActive := 0, playStarts := 0 }

/-- Three skip presses arriving before any restart's sleep elapses, then the
three sleeps elapsing with the voice client connected. -/
def rapidTriplePress : List RaceEvent :=
  [.press, .press, .press, .finish true, .finish true, .finish true]

/-! Persistent stores: the VC-session loader and the surah database loader.

The JSON file handed to either loader is abstracted as missing, wholly
unparseable, or a parsed list of raw entries; entry-level parse outcomes
(`int(...)`, `datetime.fromisoformat`, dictionary key lookups,
`RevelationType(...)`) are carried on the raw entries as `Option` fields and
flags. -/

/-- A stored JSON document as the loader sees it. -/
inductive JsonFile (α : Type)
  | missing
  | unparseable
  | parsed (entries : List α)
deriving DecidableEq, Repr

/-- One entry of `data/user_vc_sessions.json` as read back: the outcome of
`int(user_id)` on the key, the `joined_at` string with whether
`datetime.fromisoformat` accepts it, the optional `channel_name` and
`username` values, and the optional `total_time` (defaulted by `.get`). -/
structure RawSessionEntry where
  keyInt : Option Int
  joinedAt : Option String
  joinedAtParses : Bool
  channelName : Option String
  username : Option String
  totalTime : Option Int
deriving DecidableEq, Repr

/-- An in-memory VC session record. -/
structure Session where
  joinedAt : String
  channelName : String
  username : String
  totalTime : Int
deriving DecidableEq, Repr

/-- Conversion of one raw entry inside the loader's for-loop; `none` is the
entry raising (bad key, missing field, bad timestamp). -/
def convertSession (e : RawSessionEntry) : Option (Int × Session) :=
  match e.keyInt, e.joinedAt, e.channelName, e.username with
  | some k, some j, some c, some u =>
      if e.joinedAtParses then some (k, ⟨j, c, u, e.totalTime.getD 0⟩) else none
  | _, _, _, _ => none

/-- Loop of `_load_sessions`: convert entries in order; a raising entry
aborts the whole loop (the exception propagates to the handler). -/
def convertSessions (es : List RawSessionEntry) : Option (List (Int × Session)) :=
  match es with
  | [] => some []
  | e :: rest =>
      match convertSession e with
      | none => none
      | some p => (convertSessions rest).map (fun l => p :: l)

/-- `_load_sessions` (discord_logger.py lines 88 on), starting from the empty
`user_sessions` dict of `__init__`: a missing file leaves it empty; an
unparseable file or any raising entry lands in the `except` clause, which
logs the failure and resets `user_sessions` to the empty dict.  The returned
flag records whether the error path logged.  The Python never re-raises to
its caller; correspondingly this function is total. -/
def load_sessions (f : JsonFile RawSessionEntry) : List (Int × Session) × Bool :=
  match f with
  | .missing => ([], false)
  | .unparseable => ([], true)
  | .parsed es =>
      match convertSessions es with
      | none => ([], true)
      | some l => (l, false)

/-- Revelation location enum of the surah database. -/
inductive RevelationType
  | meccan
  | medinan
deriving DecidableEq, Repr

/-- Complete information about a surah, as in the `SurahInfo` dataclass. -/
structure SurahInfo where
  number : Int
  nameArabic : String
  nameEnglish : String
  nameTransliteration : String
  emoji : String
  verses : Int
  revelationType : RevelationType
  meaning : String
  description : String
deriving DecidableEq, Repr

/-- One entry of `surahs.json` as read back: the outcome of
`int(number_str)` on the key, the list of required fields absent from the
entry, whether building `SurahInfo` (field typing and
`RevelationType(...)`) succeeds, and the built value when it does. -/
structure RawSurahEntry where
  keyInt : Option Int
  missingFields : List String
  buildOk : Bool
  built : SurahInfo
deriving DecidableEq, Repr

/-- Loop body of `load_surah_database`: a bad key or a raising build is
caught by the inner `except` and skipped with `continue`, an entry with
missing required fields is skipped with a warning, and a fully valid entry
is stored under its key. -/
def surahStep (acc : List (Int × SurahInfo)) (e : RawSurahEntry) :
    List (Int × SurahInfo) :=
  match e.keyInt with
  | none => acc
  | some n =>
      if e.missingFields.isEmpty then
        if e.buildOk then acc ++ [(n, e.built)] else acc
      else acc

/-- `load_surah_database` (surah_mapper.py lines 68 on): a missing file,
unparseable JSON, or any other whole-file failure returns the empty dict; a
parsed file is folded entry by entry with `surahStep`.  The Python never
raises to its caller; correspondingly this function is total. -/
def load_surah_database (f : JsonFile RawSurahEntry) : List (Int × SurahInfo) :=
  match f with
  | .missing => []
  | .unparseable => []
  | .parsed es => es.foldl surahStep []

/-- The loaded surah database, a dict keyed by surah number. -/
abbrev SurahDB : Type := List (Int × SurahInfo)

/-- Dictionary `.get` on the database. -/
def dbGet (db : SurahDB) (n : Int) : Option SurahInfo :=
  (db.find? (fun p => p.1 == n)).map Prod.snd

/-- `validate_surah_number` (surah_mapper.py lines 381 on): true exactly on
1..114. -/
def validate_surah_number (n : Int) : Bool :=
  1 ≤ n && n ≤ 114

/-- `get_surah_info` (surah_mapper.py lines 177 on): `None` on an invalid
number, on an unloaded (empty) database, and on a number absent from the
database. -/
def get_surah_info (db : SurahDB) (n : Int) : Option SurahInfo :=
  if !validate_surah_number n then none
  else if db.isEmpty then none
  else dbGet db n

/-- Python's format `{:03d}` as applied to the validated range 1..114. -/
def pad3 (n : Int) : String :=
  if n < 10 then "00" ++ toString n
  else if n < 100 then "0" ++ toString n
  else toString n

/-- `get_surah_name` (surah_mapper.py lines 201 on): the fallback string
when the surah is not found, otherwise the name in the requested language,
optionally prefixed by the emoji. -/
def get_surah_name (db : SurahDB) (n : Int) (includeEmoji : Bool)
    (language : String) : String :=
  match get_surah_info db n with
  | none => "Surah " ++ toString n
  | some s =>
      let name :=
        if language = "arabic" then s.nameArabic
        else if language = "transliteration" then s.nameTransliteration
        else s.nameEnglish
      if includeEmoji then s.emoji ++ " " ++ name else name

/-- `get_surah_display` (surah_mapper.py lines 227 on): the fallback string
when the surah is not found, otherwise one of the four display formats. -/
def get_surah_display (db : SurahDB) (n : Int) (formatType : String) : String :=
  match get_surah_info db n with
  | none => "Surah " ++ toString n
  | some s =>
      if formatType = "short" then
        s.emoji ++ " " ++ s.nameEnglish
      else if formatType = "number" then
        pad3 n ++ ". " ++ s.emoji ++ " " ++ s.nameEnglish
      else if formatType = "detailed" then
        pad3 n ++ ". " ++ s.emoji ++ " " ++ s.nameEnglish ++ " (" ++
          s.nameTransliteration ++ ") - " ++ toString s.verses ++ " verses"
      else
        pad3 n ++ ". " ++ s.emoji ++ " " ++ s.nameEnglish ++ " (" ++
          s.nameTransliteration ++ ")"

/-- A loaded database is well formed when every record carries non-empty
Arabic, English and transliterated names, as the shipped `surahs.json`
does. -/
def WellFormedDB (db : SurahDB) : Prop :=
  ∀ p ∈ db, 0 < p.2.nameArabic.length ∧ 0 < p.2.nameEnglish.length ∧
    0 < p.2.nameTransliteration.length

/-- Python's `str.lower()`. -/
def pyLower (s : String) : String :=
  ⟨s.data.map Char.toLower⟩

/-- Python's `str.strip()`: whitespace removed from both ends. -/
def pyStrip (s : String) : String :=
  ⟨((s.data.dropWhile Char.isWhitespace).reverse.dropWhile Char.isWhitespace).reverse⟩

/-- Python's substring test `needle in hay` on character lists. -/
def listContains (n : List Char) : List Char → Bool
  | [] => n.isEmpty
  | c :: rest => n.isPrefixOf (c :: rest) || listContains n rest

/-- Python's substring test on strings. -/
def pyIn (needle hay : String) : Bool :=
  listContains needle.toList hay.toList

/-- `search_surahs` (surah_mapper.py lines 273 on): empty or whitespace-only
queries and an unloaded database give no results; otherwise the query is
lowercased and stripped and matched as a substring of the lowercased English
name, the lowercased transliteration, or the Arabic name of each surah. -/
def search_surahs (db : List SurahInfo) (query : String) : List SurahInfo :=
  if query.data.isEmpty || (pyStrip query).data.isEmpty then []
  else if db.isEmpty then []
  else
    db.filter (fun s =>
      pyIn (pyStrip (pyLower query)) (pyLower s.nameEnglish) ||
        pyIn (pyStrip (pyLower query)) (pyLower s.nameTransliteration) ||
        pyIn (pyStrip (pyLower query)) s.nameArabic)

/-! Concrete instances used to settle the claims on explicit inputs. -/

/-- A catalog with one reciter holding all 114 surahs in order, so the last
track index is 113. -/
def fullReciterCatalog : Catalog :=
  [("Saad Al Ghamdi", (List.range 114).map (· + 1))]

/-- Playing the last track (index 113 of 114), loop disabled. -/
def lastIndexState : BotState :=
  { initState with currentReciter := some "Saad Al Ghamdi", currentIndex := some 113 }

/-- Playing the last track with loop enabled. -/
def lastIndexLoopState : BotState :=
  { lastIndexState with loopEnabled := true, loopUser := some 7 }

/-- A state where user 7 already has loop enabled. -/
def loopOnState : BotState :=
  { initState with loopEnabled := true, loopUser := some 7 }

/-- A catalog for reciter switching: reciter A at three tracks whose third is
surah 18, reciter B holding surah 18 at position 0, reciter D without
surah 18. -/
def demoCat : Catalog :=
  [("A", [1, 2, 18]), ("B", [18, 5]), ("D", [1, 2])]

/-- Listening to reciter A's third track (surah 18). -/
def demoState : BotState :=
  { initState with currentReciter := some "A", currentIndex := some 2 }

/-- A fully populated surah record. -/
def goodSurah : SurahInfo :=
  { number := 1, nameArabic := "A", nameEnglish := "The Opening",
    nameTransliteration := "Al-Fatihah", emoji := "E", verses := 7,
    revelationType := .meccan, meaning := "m", description := "d" }

/-- A stored surah entry that parses completely. -/
def completeEntry : RawSurahEntry :=
  { keyInt := some 1, missingFields := [], buildOk := true, built := goodSurah }

/-- A stored surah entry with a required field absent. -/
def incompleteEntry : RawSurahEntry :=
  { keyInt := some 2, missingFields := ["verses"], buildOk := true, built := goodSurah }

/-- A stored session entry whose `joined_at` key is absent. -/
def badSessionEntry : RawSessionEntry :=
  { keyInt := some 3, joinedAt := none, joinedAtParses := true,
    channelName := some "general", username := some "john", totalTime := none }

/-- A surah whose names are capitalized, as in the shipped database. -/
def lightSurah : SurahInfo :=
  { number := 24, nameArabic := "X", nameEnglish := "Light",
    nameTransliteration := "Nur", emoji := "E", verses := 64,
    revelationType := .medinan, meaning := "m", description := "d" }

/-! Theorems settling the claims. -/

/-- C1 counterexample: with the current index at the last track (113 of a
114-track reciter) and loop disabled, `skip_button` does not leave the index
unchanged and does not report a boundary — it moves the index to 114 (past
the end) and restarts; with loop enabled it also moves to 114 instead of
wrapping to 0. -/
theorem skip_at_last_index_counterexample :
    Catalog.tracks fullReciterCatalog "Saad Al Ghamdi" =
      some ((List.range 114).map (· + 1)) ∧
    ((List.range 114).map (· + 1)).length = 114 ∧
    lastIndexState.currentIndex = some 113 ∧
    lastIndexState.loopEnabled = false ∧
    (skip_button true 1 "user" lastIndexState).1.currentIndex = some 114 ∧
    (skip_button true 1 "user" lastIndexState).2 = PressResult.restarted ∧
    lastIndexLoopState.loopEnabled = true ∧
    (skip_button true 1 "user" lastIndexLoopState).1.currentIndex = some 114 := by
  decide

/-- C1 (amended): `skip_button` reports a boundary warning and changes
nothing exactly when no current index is set; whenever an index is set it
unconditionally persists the old index plus 1, with no last-index check and
no wrap regardless of `loop_enabled`. -/
theorem skip_button_always_increments (s : BotState) (v : Bool) (uid : Nat)
    (un : String) :
    (s.currentIndex = none → skip_button v uid un s = (s, PressResult.boundary)) ∧
    (∀ i, s.currentIndex = some i →
      (skip_button v uid un s).1.currentIndex = some (i + 1) ∧
      (skip_button v uid un s).1.loopEnabled = s.loopEnabled ∧
      (skip_button v uid un s).2 ≠ PressResult.boundary) := by
  refine ⟨fun h => ?_, fun i h => ?_⟩
  · simp [skip_button, h]
  · cases v <;> simp [skip_button, h, restart_playback]

/-- Witness for the amended C1 theorem at concrete states. -/
theorem skip_button_always_increments_witness :
    skip_button true 1 "u" initState = (initState, PressResult.boundary) ∧
    (skip_button true 1 "u" { initState with currentIndex := some 5 }).1.currentIndex =
      some 6 :=
  ⟨(skip_button_always_increments initState true 1 "u").1 rfl,
   ((skip_button_always_increments { initState with currentIndex := some 5 }
      true 1 "u").2 5 rfl).1⟩

/-- C2: three skip presses arriving before any restart's sleep elapses leave
three restart coroutines suspended simultaneously (`maxActive = 3`, not at
most one), and once their sleeps elapse each spawns its own
`play_quran_files` stream task (`playStarts = 3`), so the two superseded
restarts do start playing rather than being discarded; the persisted index
does end at the third target. -/
theorem rapid_skip_presses_overlap_restarts :
    (raceRun raceInit rapidTriplePress).maxActive = 3 ∧
    (raceRun raceInit rapidTriplePress).playStarts = 3 ∧
    (raceRun raceInit rapidTriplePress).idx = some 3 := by
  decide

/-- C3: `previous_button` with no index set or at index 0 returns the state
untouched with the boundary warning; otherwise it persists the old index
minus 1. -/
theorem previous_button_boundary_noop (s : BotState) (v : Bool) (uid : Nat)
    (un : String) :
    (s.currentIndex = none → previous_button v uid un s = (s, PressResult.boundary)) ∧
    (s.currentIndex = some 0 → previous_button v uid un s = (s, PressResult.boundary)) ∧
    (∀ i, s.currentIndex = some (i + 1) →
      (previous_button v uid un s).1.currentIndex = some i ∧
      (previous_button v uid un s).2 ≠ PressResult.boundary) := by
  refine ⟨fun h => ?_, fun h => ?_, fun i h => ?_⟩
  · simp [previous_button, h]
  · simp [previous_button, h]
  · cases v <;> simp [previous_button, h, restart_playback]

/-- Witness for the C3 theorem at concrete states. -/
theorem previous_button_boundary_noop_witness :
    previous_button true 1 "u" initState = (initState, PressResult.boundary) ∧
    previous_button true 1 "u" { initState with currentIndex := some 0 } =
      ({ initState with currentIndex := some 0 }, PressResult.boundary) ∧
    (previous_button true 1 "u" { initState with currentIndex := some 5 }).1.currentIndex =
      some 4 :=
  ⟨(previous_button_boundary_noop initState true 1 "u").1 rfl,
   (previous_button_boundary_noop _ true 1 "u").2.1 rfl,
   ((previous_button_boundary_noop _ true 1 "u").2.2 4 rfl).1⟩

/-- C5 counterexample: starting from a state where loop is already enabled,
two toggles end with loop enabled and the second user recorded as owner, not
with the disabled state the claim requires of every starting state. -/
theorem toggle_loop_twice_from_enabled_counterexample :
    loopOnState.loopEnabled = true ∧
    (loop_button 2 "b" (loop_button 1 "a" loopOnState)).loopEnabled = true ∧
    (loop_button 2 "b" (loop_button 1 "a" loopOnState)).loopUser = some 2 := by
  decide

/-- C5 (amended): two loop toggles restore `loop_enabled` to its original
value; from the disabled state they return to disabled with no owner; and a
single toggle never changes the index, the reciter, the streaming flag or
the set of spawned stream tasks (no restart). -/
theorem toggle_loop_round_trip (s : BotState) (u1 u2 : Nat) (n1 n2 : String) :
    (loop_button u2 n2 (loop_button u1 n1 s)).loopEnabled = s.loopEnabled ∧
    (s.loopEnabled = false →
      (loop_button u2 n2 (loop_button u1 n1 s)).loopEnabled = false ∧
      (loop_button u2 n2 (loop_button u1 n1 s)).loopUser = none) ∧
    (loop_button u1 n1 s).currentIndex = s.currentIndex ∧
    (loop_button u1 n1 s).currentReciter = s.currentReciter ∧
    (loop_button u1 n1 s).isStreaming = s.isStreaming ∧
    (loop_button u1 n1 s).playSpawns = s.playSpawns := by
  cases h : s.loopEnabled <;> simp [loop_button, h]

/-- Witness for the amended C5 theorem: from the startup state two toggles
end disabled with no owner. -/
theorem toggle_loop_round_trip_witness :
    (loop_button 2 "b" (loop_button 1 "a" initState)).loopEnabled = false ∧
    (loop_button 2 "b" (loop_button 1 "a" initState)).loopUser = none :=
  (toggle_loop_round_trip initState 1 2 "a" "b").2.1 rfl

/-- C8: with an index set, `skip_button` persists the incremented index
whether or not the later restart finds a voice connection; when it does not,
the handler reports the no-voice error, leaves the cursor stopped
(`is_streaming` false), and the persisted index stays at the new value — no
rollback. -/
theorem skip_button_persists_despite_no_voice (s : BotState) (uid : Nat)
    (un : String) (i : Nat) (h : s.currentIndex = some i) :
    (∀ v, (skip_button v uid un s).1.currentIndex = some (i + 1)) ∧
    (skip_button false uid un s).2 = PressResult.noVoice ∧
    (skip_button false uid un s).1.isStreaming = false := by
  refine ⟨fun v => ?_, ?_, ?_⟩
  · cases v <;> simp [skip_button, h, restart_playback]
  · simp [skip_button, h, restart_playback]
  · simp [skip_button, h, restart_playback]

/-- Witness for the C8 theorem at a concrete state. -/
theorem skip_button_persists_despite_no_voice_witness :
    (skip_button false 1 "u" { initState with currentIndex := some 5 }).1.currentIndex =
      some 6 ∧
    (skip_button false 1 "u" { initState with currentIndex := some 5 }).2 =
      PressResult.noVoice := by
  have h := skip_button_persists_despite_no_voice
    { initState with currentIndex := some 5 } 1 "u" 5 rfl
  exact ⟨h.1 false, h.2.1⟩

/-- The restart helper never touches the loop or shuffle bookkeeping. -/
lemma ownerInv_restart (v : Bool) (s : BotState) (h : OwnerInv s) :
    OwnerInv (restart_playback v s).1 := by
  cases v <;> simpa [restart_playback, OwnerInv] using h

/-- Every control-panel operation preserves the owner-tracking invariant. -/
lemma ownerInv_applyOp (cat : Catalog) (s : BotState) (op : Op) (h : OwnerInv s) :
    OwnerInv (applyOp cat s op) := by
  cases op with
  | next v uid un =>
      cases hs : s.currentIndex with
      | none => simpa [applyOp, skip_button, hs] using h
      | some i =>
          simp only [applyOp, skip_button, hs]
          exact ownerInv_restart v _ (by simpa [OwnerInv] using h)
  | prev v uid un =>
      cases hs : s.currentIndex with
      | none => simpa [applyOp, previous_button, hs] using h
      | some i =>
          by_cases hi : i = 0
          · simpa [applyOp, previous_button, hs, hi] using h
          · simp only [applyOp, previous_button, hs, if_neg hi]
            exact ownerInv_restart v _ (by simpa [OwnerInv] using h)
  | toggleLoop uid un =>
      cases hl : s.loopEnabled <;>
        simp [applyOp, loop_button, hl, OwnerInv] <;> exact h.2
  | toggleShuffle uid un =>
      cases hl : s.shuffleEnabled <;>
        simp [applyOp, shuffle_button, hl, OwnerInv] <;> exact h.1
  | selectReciter v uid un name =>
      cases hc : Catalog.tracks cat name with
      | none => simpa [applyOp, reciter_select_callback, set_reciter, hc] using h
      | some tr =>
          simp only [applyOp, reciter_select_callback, set_reciter, hc]
          exact ownerInv_restart v _ (by simpa [OwnerInv] using h)

/-- C6: from the startup state, any sequence of skip, previous, loop toggle,
shuffle toggle and reciter-switch operations preserves that the loop owner
is recorded exactly when loop is enabled and the shuffle owner exactly when
shuffle is enabled. -/
theorem loop_shuffle_owner_invariant (cat : Catalog) (ops : List Op) :
    OwnerInv (runOps cat initState ops) := by
  have h0 : OwnerInv initState := ⟨rfl, rfl⟩
  suffices h : ∀ s, OwnerInv s → OwnerInv (runOps cat s ops) from h initState h0
  induction ops with
  | nil => exact fun s hs => hs
  | cons op rest ih =>
      intro s hs
      exact ih (applyOp cat s op) (ownerInv_applyOp cat s op hs)

/-- A surah number absent from a track list has no index. -/
lemma index_for_surah_not_mem (tracks : List Nat) (n : Nat) (h : n ∉ tracks) :
    index_for_surah tracks n = none := by
  induction tracks with
  | nil => rfl
  | cons t rest ih =>
      have h1 : ¬t = n := fun e => h (by simp [e])
      have h2 : n ∉ rest := fun hm => h (by simp [hm])
      simp [index_for_surah, h1, ih h2]

/-- A surah number present in a track list resolves to an index holding that
surah. -/
lemma index_for_surah_mem (tracks : List Nat) (n : Nat) (h : n ∈ tracks) :
    ∃ j, index_for_surah tracks n = some j ∧ tracks[j]? = some n := by
  induction tracks with
  | nil => exact absurd h (List.not_mem_nil n)
  | cons t rest ih =>
      by_cases ht : t = n
      · exact ⟨0, by simp [index_for_surah, ht], by simp [ht]⟩
      · have hm : n ∈ rest := by
          rcases List.mem_cons.mp h with h1 | h2
          · exact absurd h1.symm ht
          · exact h2
        obtain ⟨j, hj, hg⟩ := ih hm
        exact ⟨j + 1, by simp [index_for_surah, ht, hj], by simpa using hg⟩

/-- C4: a reciter switch to an unknown name fails with the unknown-reciter
error and changes nothing; a switch to a known reciter, from a position
whose surah number resolves, lands on an index of the new track list holding
the same surah number when present, and on index 0 when the new reciter
lacks that surah. -/
theorem set_reciter_contract (cat : Catalog) (s : BotState) (r2 : String) :
    (Catalog.tracks cat r2 = none →
      set_reciter cat r2 s = (s, some ReciterError.unknownReciter)) ∧
    (∀ newTracks r1 oldTracks i surah,
      Catalog.tracks cat r2 = some newTracks →
      s.currentReciter = some r1 →
      s.currentIndex = some i →
      Catalog.tracks cat r1 = some oldTracks →
      oldTracks[i]? = some surah →
      ((surah ∈ newTracks →
          ∃ j, (set_reciter cat r2 s).1.currentIndex = some j ∧
            newTracks[j]? = some surah ∧
            (set_reciter cat r2 s).1.currentReciter = some r2 ∧
            (set_reciter cat r2 s).2 = none) ∧
       (surah ∉ newTracks →
          (set_reciter cat r2 s).1.currentIndex = some 0 ∧
          (set_reciter cat r2 s).1.currentReciter = some r2 ∧
          (set_reciter cat r2 s).2 = none))) := by
  constructor
  · intro h
    simp [set_reciter, h]
  · intro newTracks r1 oldTracks i surah hNew hR hI hOld hGet
    have hdef : set_reciter cat r2 s =
        ({ s with currentReciter := some r2,
                  currentIndex := some ((index_for_surah newTracks surah).getD 0) },
         none) := by
      simp [set_reciter, hNew, hR, hI, hOld, hGet]
    constructor
    · intro hmem
      obtain ⟨j, hj, hg⟩ := index_for_surah_mem newTracks surah hmem
      refine ⟨j, ?_, hg, ?_, ?_⟩ <;> simp [hdef, hj]
    · intro hnmem
      have hn := index_for_surah_not_mem newTracks surah hnmem
      refine ⟨?_, ?_, ?_⟩ <;> simp [hdef, hn]

/-- Witness for the C4 theorem on a concrete catalog: switching from A
(playing surah 18 at raw index 2) to B lands at B's position of surah 18,
switching to D (which lacks surah 18) falls back to index 0, and switching
to the unknown C fails without changing the state. -/
theorem set_reciter_contract_witness :
    set_reciter demoCat "C" demoState = (demoState, some ReciterError.unknownReciter) ∧
    (∃ j, (set_reciter demoCat "B" demoState).1.currentIndex = some j ∧
      ([18, 5] : List Nat)[j]? = some 18 ∧
      (set_reciter demoCat "B" demoState).1.currentReciter = some "B" ∧
      (set_reciter demoCat "B" demoState).2 = none) ∧
    ((set_reciter demoCat "D" demoState).1.currentIndex = some 0 ∧
      (set_reciter demoCat "D" demoState).1.currentReciter = some "D" ∧
      (set_reciter demoCat "D" demoState).2 = none) :=
  ⟨(set_reciter_contract demoCat demoState "C").1 (by decide),
   ((set_reciter_contract demoCat demoState "B").2 [18, 5] "A" [1, 2, 18] 2 18
      (by decide) rfl rfl (by decide) (by decide)).1 (by decide),
   ((set_reciter_contract demoCat demoState "D").2 [1, 2] "A" [1, 2, 18] 2 18
      (by decide) rfl rfl (by decide) (by decide)).2 (by decide)⟩

/-- A session store containing one raising entry makes the whole load raise
into the handler. -/
lemma convertSessions_none (es : List RawSessionEntry)
    (h : ∃ e ∈ es, convertSession e = none) : convertSessions es = none := by
  induction es with
  | nil =>
      obtain ⟨e, he, _⟩ := h
      exact absurd he (List.not_mem_nil e)
  | cons e rest ih =>
      obtain ⟨e', he', hc⟩ := h
      rcases List.mem_cons.mp he' with h1 | h2
      · subst h1
        simp [convertSessions, hc]
      · cases hce : convertSession e with
        | none => simp [convertSessions, hce]
        | some p => simp [convertSessions, hce, ih ⟨e', h2, hc⟩]

/-- Anything `surahStep` adds comes from a fully valid entry. -/
lemma surahStep_mem (acc : List (Int × SurahInfo)) (e : RawSurahEntry)
    (p : Int × SurahInfo) (h : p ∈ surahStep acc e) :
    p ∈ acc ∨ (e.keyInt = some p.1 ∧ e.missingFields = [] ∧ e.buildOk = true ∧
      e.built = p.2) := by
  cases hk : e.keyInt with
  | none =>
      left
      simpa [surahStep, hk] using h
  | some n =>
      by_cases hm : e.missingFields.isEmpty
      · by_cases hb : e.buildOk = true
        · simp only [surahStep, hk, hm, hb, if_true] at h
          rcases List.mem_append.mp h with h1 | h1
          · exact Or.inl h1
          · have h2 := List.mem_singleton.mp h1
            subst h2
            exact Or.inr ⟨rfl, List.isEmpty_iff.mp hm, hb, rfl⟩
        · left
          simpa [surahStep, hk, hm, hb] using h
      · left
        simpa [surahStep, hk, hm] using h

/-- Every record of the folded database stems from a fully valid stored
entry. -/
lemma foldl_surahStep_mem (es : List RawSurahEntry) :
    ∀ acc p, p ∈ es.foldl surahStep acc →
      p ∈ acc ∨ ∃ e ∈ es, e.keyInt = some p.1 ∧ e.missingFields = [] ∧
        e.buildOk = true ∧ e.built = p.2 := by
  induction es with
  | nil => exact fun acc p h => Or.inl h
  | cons e rest ih =>
      intro acc p h
      rcases ih (surahStep acc e) p h with h1 | ⟨e', he', hp⟩
      · rcases surahStep_mem acc e p h1 with h2 | h2
        · exact Or.inl h2
        · exact Or.inr ⟨e, List.mem_cons_self e rest, h2⟩
      · exact Or.inr ⟨e', List.mem_cons_of_mem e he', hp⟩

/-- C7 counterexample: a parseable surah store holding one complete entry
and one entry with a missing required field does not degrade to the empty
default database — the loader keeps the valid entry and only skips the
incomplete one. -/
theorem load_surah_partial_corruption_counterexample :
    incompleteEntry.missingFields ≠ [] ∧
    load_surah_database (JsonFile.parsed [completeEntry, incompleteEntry]) =
      [(1, goodSurah)] ∧
    load_surah_database (JsonFile.parsed [completeEntry, incompleteEntry]) ≠ [] := by
  decide

/-- C7 (amended): neither loader ever raises (both are total functions of
the stored input); a missing or wholly unparseable store yields the empty
default, with the error path logging for the sessions loader; a parseable
session store with any raising entry resets the sessions to the empty
default with a logged error; a parseable surah store degrades per entry —
every record the loader returns stems from a fully valid stored entry. -/
theorem load_degrades_to_valid_state :
    load_sessions JsonFile.missing = ([], false) ∧
    load_sessions JsonFile.unparseable = ([], true) ∧
    (∀ es, (∃ e ∈ es, convertSession e = none) →
      load_sessions (JsonFile.parsed es) = ([], true)) ∧
    load_surah_database JsonFile.missing = [] ∧
    load_surah_database JsonFile.unparseable = [] ∧
    (∀ es p, p ∈ load_surah_database (JsonFile.parsed es) →
      ∃ e ∈ es, e.keyInt = some p.1 ∧ e.missingFields = [] ∧
        e.buildOk = true ∧ e.built = p.2) := by
  refine ⟨rfl, rfl, fun es h => ?_, rfl, rfl, fun es p h => ?_⟩
  · simp [load_sessions, convertSessions_none es h]
  · rcases foldl_surahStep_mem es [] p h with h1 | h1
    · exact absurd h1 (List.not_mem_nil p)
    · exact h1

/-- Witness for the amended C7 theorem on concrete stores. -/
theorem load_degrades_to_valid_state_witness :
    load_sessions (JsonFile.parsed [badSessionEntry]) = ([], true) ∧
    (∃ e ∈ [completeEntry, incompleteEntry], e.keyInt = some (1 : Int) ∧
      e.missingFields = [] ∧ e.buildOk = true ∧ e.built = goodSurah) :=
  ⟨load_degrades_to_valid_state.2.2.1 [badSessionEntry]
      ⟨badSessionEntry, by simp, rfl⟩,
   load_degrades_to_valid_state.2.2.2.2.2 [completeEntry, incompleteEntry]
      (1, goodSurah) (by decide)⟩

/-- A string of positive length is not the empty string. -/
lemma ne_empty_of_length_pos (s : String) (h : 0 < s.length) : s ≠ "" := by
  intro he
  rw [he] at h
  exact absurd h (by decide)

/-- An emoji-prefixed name is never empty thanks to the separating space. -/
lemma emoji_name_ne_empty (a b : String) : a ++ " " ++ b ≠ "" := by
  apply ne_empty_of_length_pos
  simp only [String.length_append]
  have h1 : (" " : String).length = 1 := rfl
  omega

/-- The numbered display format is never empty. -/
lemma display_number_ne_empty (x a b : String) : x ++ ". " ++ a ++ " " ++ b ≠ "" := by
  apply ne_empty_of_length_pos
  simp only [String.length_append]
  have h1 : (". " : String).length = 2 := rfl
  omega

/-- The detailed display format is never empty. -/
lemma display_detailed_ne_empty (x a b c d : String) :
    x ++ ". " ++ a ++ " " ++ b ++ " (" ++ c ++ ") - " ++ d ++ " verses" ≠ "" := by
  apply ne_empty_of_length_pos
  simp only [String.length_append]
  have h1 : (". " : String).length = 2 := rfl
  omega

/-- The full display format is never empty. -/
lemma display_full_ne_empty (x a b c : String) :
    x ++ ". " ++ a ++ " " ++ b ++ " (" ++ c ++ ")" ≠ "" := by
  apply ne_empty_of_length_pos
  simp only [String.length_append]
  have h1 : (". " : String).length = 2 := rfl
  omega

/-- An invalid or absent surah number resolves to no record. -/
lemma get_surah_info_none (db : SurahDB) (n : Int)
    (h : validate_surah_number n = false ∨ dbGet db n = none) :
    get_surah_info db n = none := by
  unfold get_surah_info
  rcases h with h | h
  · simp [h]
  · split_ifs with h1 h2
    · rfl
    · rfl
    · exact h

/-- A resolved record comes from the database. -/
lemma get_surah_info_some_mem (db : SurahDB) (n : Int) (s0 : SurahInfo)
    (h : get_surah_info db n = some s0) : ∃ p ∈ db, p.2 = s0 := by
  unfold get_surah_info at h
  split_ifs at h
  unfold dbGet at h
  rcases Option.map_eq_some'.mp h with ⟨q, hq, hq2⟩
  exact ⟨q, List.mem_of_find?_eq_some hq, hq2⟩

/-- C9: over any well-formed database, `get_surah_name` and
`get_surah_display` are total and non-empty for every integer surah number,
and on an invalid (outside 1..114) or absent number both return exactly the
fallback string built from "Surah " and the number. -/
theorem surah_lookup_fallback_and_nonempty (db : SurahDB) (n : Int) (ie : Bool)
    (lang fmt : String) (hdb : WellFormedDB db) :
    ((validate_surah_number n = false ∨ dbGet db n = none) →
      get_surah_name db n ie lang = "Surah " ++ toString n ∧
      get_surah_display db n fmt = "Surah " ++ toString n) ∧
    get_surah_name db n ie lang ≠ "" ∧
    get_surah_display db n fmt ≠ "" := by
  have hfb : ("Surah " ++ toString n) ≠ "" := by
    apply ne_empty_of_length_pos
    rw [String.length_append]
    have h6 : ("Surah " : String).length = 6 := rfl
    omega
  cases hi : get_surah_info db n with
  | none =>
      have h1 : get_surah_name db n ie lang = "Surah " ++ toString n := by
        simp [get_surah_name, hi]
      have h2 : get_surah_display db n fmt = "Surah " ++ toString n := by
        simp [get_surah_display, hi]
      exact ⟨fun _ => ⟨h1, h2⟩, by rw [h1]; exact hfb, by rw [h2]; exact hfb⟩
  | some s0 =>
      obtain ⟨p, hpmem, hp2⟩ := get_surah_info_some_mem db n s0 hi
      have hnames := hdb p hpmem
      rw [hp2] at hnames
      obtain ⟨ha, he, ht⟩ := hnames
      refine ⟨fun h => ?_, ?_, ?_⟩
      · rw [get_surah_info_none db n h] at hi
        cases hi
      · cases ie with
        | true =>
            simp only [get_surah_name, hi, if_true]
            exact emoji_name_ne_empty _ _
        | false =>
            simp only [get_surah_name, hi]
            rw [if_neg (by simp)]
            split_ifs with h1 h2
            · exact ne_empty_of_length_pos _ ha
            · exact ne_empty_of_length_pos _ ht
            · exact ne_empty_of_length_pos _ he
      · simp only [get_surah_display, hi]
        split_ifs with h1 h2 h3
        · exact emoji_name_ne_empty _ _
        · exact display_number_ne_empty _ _ _
        · exact display_detailed_ne_empty _ _ _ _ _
        · exact display_full_ne_empty _ _ _ _

/-- Witness for the C9 theorem: number 500 is invalid and falls back for
both functions, and a valid lookup is non-empty. -/
theorem surah_lookup_fallback_witness :
    get_surah_name [(1, goodSurah)] 500 true "english" =
      "Surah " ++ toString (500 : Int) ∧
    get_surah_display [(1, goodSurah)] 500 "full" =
      "Surah " ++ toString (500 : Int) ∧
    get_surah_name [(1, goodSurah)] 1 true "english" ≠ "" := by
  have hdb : WellFormedDB [(1, goodSurah)] := by
    intro p hp
    rw [List.mem_singleton.mp hp]
    exact ⟨by decide, by decide, by decide⟩
  have h1 := surah_lookup_fallback_and_nonempty [(1, goodSurah)] 500 true
    "english" "full" hdb
  have h2 := surah_lookup_fallback_and_nonempty [(1, goodSurah)] 1 true
    "english" "full" hdb
  exact ⟨(h1.1 (Or.inl (by decide))).1, (h1.1 (Or.inl (by decide))).2, h2.2.1⟩

/-- C10 counterexample: the capitalized record "Light" is returned for the
query "LIGHT", yet the lowercased stripped query "light" is a substring of
none of the English name, the transliteration, or the Arabic name — the code
matches against the lowercased names, not the names themselves. -/
theorem search_case_counterexample :
    search_surahs [lightSurah] "LIGHT" = [lightSurah] ∧
    pyStrip (pyLower "LIGHT") = "light" ∧
    pyIn (pyStrip (pyLower "LIGHT")) lightSurah.nameEnglish = false ∧
    pyIn (pyStrip (pyLower "LIGHT")) lightSurah.nameTransliteration = false ∧
    pyIn (pyStrip (pyLower "LIGHT")) lightSurah.nameArabic = false := by
  decide

/-- C10 (amended): a query that is empty or whitespace-only returns no
results, and every returned surah contains the lowercased stripped query as
a substring of its lowercased English name, its lowercased transliteration,
or its (unmodified) Arabic name. -/
theorem search_matches_lowercased (db : List SurahInfo) (query : String) :
    (pyStrip query = "" → search_surahs db query = []) ∧
    (∀ s, s ∈ search_surahs db query →
      pyIn (pyStrip (pyLower query)) (pyLower s.nameEnglish) = true ∨
      pyIn (pyStrip (pyLower query)) (pyLower s.nameTransliteration) = true ∨
      pyIn (pyStrip (pyLower query)) s.nameArabic = true) := by
  constructor
  · intro h
    have hc : (pyStrip query).data.isEmpty = true := by rw [h]; rfl
    simp [search_surahs, hc]
  · intro s hs
    unfold search_surahs at hs
    split_ifs at hs with h1 h2
    · exact absurd hs (List.not_mem_nil s)
    · exact absurd hs (List.not_mem_nil s)
    · have hp := (List.mem_filter.mp hs).2
      simp only [Bool.or_eq_true] at hp
      tauto

/-- Witness for the amended C10 theorem: a whitespace query returns nothing,
and the returned record for the query "light" matches via its lowercased
English name. -/
theorem search_matches_lowercased_witness :
    search_surahs [lightSurah] " " = [] ∧
    (pyIn (pyStrip (pyLower "light")) (pyLower lightSurah.nameEnglish) = true ∨
     pyIn (pyStrip (pyLower "light")) (pyLower lightSurah.nameTransliteration) = true ∨
     pyIn (pyStrip (pyLower "light")) lightSurah.nameArabic = true) :=
  ⟨(search_matches_lowercased [lightSurah] " ").1 (by decide),
   (search_matches_lowercased [lightSurah] "light").2 lightSurah (by decide)⟩

end QuranAudioBot
